import Mathlib

/-!
# Casting Agency API — shallow embedding and verification

A shallow embedding of `src/app.py` (Flask handlers for a casting-agency
record API) together with the parts of the system the handlers rely on.
The repository ships only `app.py`; the `auth` module (`requires_auth`,
`AuthError`) and the `models` module (`Actor`, `Movie`, `CastedIn`) are
imported there but absent from the source tree, so those components are
modelled from the specification (each such definition carries a
`Modelled from the spec:` doc comment).

Handlers are pure state transformers `… → DB → Response × DB`; Flask's
`abort(code)` is modelled as returning the corresponding error-handler
response with the store unchanged (the handlers never commit before
aborting, and the backing store is transactional per the spec).
-/

namespace CastingAgency

/-- JSON values, as far as the handlers inspect them. -/
inductive Json where
  | str  : String → Json
  | num  : Int → Json
  | bool : Bool → Json
  | arr  : List Json → Json
  | obj  : List (String × Json) → Json
  deriving Repr

/-- A JSON object body, as Flask's `request.json` presents it: a
key-to-value mapping (`"k" in request.json` / `request.json["k"]`). -/
abbrev JsonObj := List (String × Json)

/-- `request.json["k"]` lookup; `none` models `"k" not in request.json`. -/
def lookupKey (j : JsonObj) (k : String) : Option Json :=
  match j with
  | [] => none
  | (k', v) :: rest => if k' = k then some v else lookupKey rest k

/-! ## Python `datetime.datetime` (library behaviour used by `app.py`) -/

/-- The value produced by `datetime.datetime(*args)`. -/
structure PyDateTime where
  year : Nat
  month : Nat
  day : Nat
  hour : Nat
  minute : Nat
  second : Nat
  microsecond : Nat
  deriving Repr, DecidableEq

/-- Gregorian leap-year rule, as `datetime` uses it. -/
def isLeap (y : Nat) : Bool :=
  (y % 4 == 0 && y % 100 != 0) || y % 400 == 0

/-- Days in a month, as `datetime` validates the `day` argument. -/
def daysInMonth (y m : Nat) : Nat :=
  if m = 2 then (if isLeap y then 29 else 28)
  else if m = 4 ∨ m = 6 ∨ m = 9 ∨ m = 11 then 30
  else 31

/-- `datetime.datetime(y, m, d, h, mi, s, us)`: range-checks every
component (`ValueError` → `none` on violation). -/
def mkDatetime7 (y m d h mi s us : Int) : Option PyDateTime :=
  if 1 ≤ y ∧ y ≤ 9999 ∧ 1 ≤ m ∧ m ≤ 12 ∧
     1 ≤ d ∧ d ≤ (daysInMonth y.toNat m.toNat : Int) ∧
     0 ≤ h ∧ h ≤ 23 ∧ 0 ≤ mi ∧ mi ≤ 59 ∧ 0 ≤ s ∧ s ≤ 59 ∧
     0 ≤ us ∧ us ≤ 999999 then
    some ⟨y.toNat, m.toNat, d.toNat, h.toNat, mi.toNat, s.toNat, us.toNat⟩
  else
    none

/-- `datetime.datetime(*args)` on a list of integer positional arguments:
year/month/day are required, then hour/minute/second/microsecond; fewer
than 3 or more than 7 integer arguments is a `TypeError` (`none`). -/
def mkDatetime (args : List Int) : Option PyDateTime :=
  match args with
  | [y, m, d] => mkDatetime7 y m d 0 0 0 0
  | [y, m, d, h] => mkDatetime7 y m d h 0 0 0
  | [y, m, d, h, mi] => mkDatetime7 y m d h mi 0 0
  | [y, m, d, h, mi, s] => mkDatetime7 y m d h mi s 0
  | [y, m, d, h, mi, s, us] => mkDatetime7 y m d h mi s us
  | _ => none

/-- Helper for `splitDash`: accumulates the current segment (reversed). -/
def splitDashAux : List Char → List Char → List (List Char)
  | [], acc => [acc.reverse]
  | c :: rest, acc =>
    if c = '-' then acc.reverse :: splitDashAux rest []
    else splitDashAux rest (c :: acc)

/-- Python `s.split("-")`: the dash-separated segments, keeping empty
segments (`"".split("-") == [""]`, `"a--b".split("-") == ["a","","b"]`). -/
def splitDash (s : String) : List (List Char) :=
  splitDashAux s.data []

/-- The numeric value of a digit string. -/
def digitsToNat (cs : List Char) : Nat :=
  cs.foldl (fun n c => 10 * n + (c.toNat - 48)) 0

/-- Python `int(seg)` on a segment of `s.split("-")` (so the segment never
contains `"-"`): an optional `+` sign followed by one or more digits;
anything else raises `ValueError` (`none`). -/
def pyIntSeg (cs : List Char) : Option Int :=
  let t := match cs with
    | '+' :: rest => rest
    | _ => cs
  if t ≠ [] ∧ t.all Char.isDigit then
    some (Int.ofNat (digitsToNat t))
  else
    none

/-- The release-date computation of `post_movie`/`patch_movie`
(`src/app.py` lines 156–160 and 227–231):
`[int(val) for val in rd.split("-")]` then `datetime.datetime(*date_arr)`.
`none` models any exception raised on the way (caught by the handler). -/
def parseReleaseDate (s : String) : Option PyDateTime :=
  match (splitDash s).mapM pyIntSeg with
  | none => none
  | some args => mkDatetime args

/-! ## Entity Store data model

`models.py` is not in the source tree; the entity kinds and the store
operations are modelled from the spec's data model (§3) and Entity Store
contract (§4.4). -/

/-- Modelled from the spec: `Actor` of the missing `models.py` —
"id (unique, system-assigned), name (text), age (integer), gender (text)". -/
structure Actor where
  id : Nat
  name : String
  age : Int
  gender : String
  deriving Repr, DecidableEq

/-- Modelled from the spec: `Movie` of the missing `models.py` —
"id (unique, system-assigned), title (text), release_date (calendar date)". -/
structure Movie where
  id : Nat
  title : String
  release_date : PyDateTime
  deriving Repr, DecidableEq

/-- Modelled from the spec: `CastedIn` of the missing `models.py` — the
Casting join entity, referencing exactly one Actor and one Movie. -/
structure CastedIn where
  actorId : Nat
  movieId : Nat
  deriving Repr, DecidableEq

/-- The Entity Store state: the three tables. -/
structure DB where
  actors : List Actor
  movies : List Movie
  castings : List CastedIn
  deriving Repr, DecidableEq

/-- `Actor.query.filter(Actor.id == id).first()`. -/
def findActor (db : DB) (id : Nat) : Option Actor :=
  db.actors.find? (fun a => a.id == id)

/-- `Movie.query.filter(Movie.id == id).first()`. -/
def findMovie (db : DB) (id : Nat) : Option Movie :=
  db.movies.find? (fun m => m.id == id)

/-- Modelled from the spec: id assignment of the missing `models.py` —
"Create: assigns a fresh unique id". -/
def freshId (ids : List Nat) : Nat :=
  ids.foldr max 0 + 1

/-- Modelled from the spec: `Actor.delete` of the missing `models.py` —
removes the actor row and, per the Entity Store contract, "any Casting
links referencing it must be removed as part of the same logical
operation (no orphaned links survive)". -/
def DB.removeActor (db : DB) (id : Nat) : DB :=
  { db with actors := db.actors.filter (fun a => a.id ≠ id),
            castings := db.castings.filter (fun c => c.actorId ≠ id) }

/-- Modelled from the spec: `Movie.delete` of the missing `models.py` —
removes the movie row and every Casting link referencing it. -/
def DB.removeMovie (db : DB) (id : Nat) : DB :=
  { db with movies := db.movies.filter (fun m => m.id ≠ id),
            castings := db.castings.filter (fun c => c.movieId ≠ id) }

/-- Replace the first list entry whose id matches (SQLAlchemy `first()`
returns one row object; mutating and committing it touches that row only). -/
def replaceFirstActor (l : List Actor) (id : Nat) (a' : Actor) : List Actor :=
  match l with
  | [] => []
  | x :: xs => if x.id = id then a' :: xs else x :: replaceFirstActor xs id a'

/-- Replace the first movie whose id matches. -/
def replaceFirstMovie (l : List Movie) (id : Nat) (m' : Movie) : List Movie :=
  match l with
  | [] => []
  | x :: xs => if x.id = id then m' :: xs else x :: replaceFirstMovie xs id m'

/-! ## Responses -/

/-- An HTTP response: status code plus JSON body. -/
structure Response where
  status : Nat
  body : Json
  deriving Repr

/-- The uniform error envelope all error handlers in `app.py` build:
`{"success": false, "error": code, "message": msg}`. -/
def errBody (code : Nat) (msg : String) : Json :=
  .obj [("success", .bool false), ("error", .num code), ("message", .str msg)]

/-- `@app.errorhandler(400)`: `{"success": False, "error": 400,
"message": "bad request"}` with status 400. -/
def resp400 : Response := ⟨400, errBody 400 "bad request"⟩

/-- `@app.errorhandler(404)`: `"message": "not found"` with status 404. -/
def resp404 : Response := ⟨404, errBody 404 "not found"⟩

/-- `@app.errorhandler(422)`: `"message": "unprocessable"` with status 422. -/
def resp422 : Response := ⟨422, errBody 422 "unprocessable"⟩

/-- `models.Actor.format()`; modelled from the spec's listing contract:
`{id, name, age, gender}`. -/
def Actor.format (a : Actor) : Json :=
  .obj [("id", .num a.id), ("name", .str a.name),
        ("age", .num a.age), ("gender", .str a.gender)]

/-- Zero-padding for two-digit date components. -/
def pad2 (n : Nat) : String :=
  if n < 10 then "0" ++ toString n else toString n

/-- Render a stored date in `YYYY-MM-DD` form (spec §8: release_date
round-trips as `2021-12-31`). -/
def PyDateTime.fmtDate (d : PyDateTime) : String :=
  toString d.year ++ "-" ++ pad2 d.month ++ "-" ++ pad2 d.day

/-- `models.Movie.format()`; modelled from the spec's listing contract:
`{id, title, release_date}`. -/
def Movie.format (m : Movie) : Json :=
  .obj [("id", .num m.id), ("title", .str m.title),
        ("release_date", .str m.release_date.fmtDate)]

/-! ## Operation handlers (`src/app.py`) -/

/-- The movie titles reachable via an actor's casting links
(`for casted_in in obj.casted_in: movies.append(casted_in.movie.title)`). -/
def actorMovieTitles (db : DB) (aid : Nat) : List String :=
  (db.castings.filter (fun c => c.actorId == aid)).filterMap
    (fun c => (findMovie db c.movieId).map (fun m => m.title))

/-- The actor names reachable via a movie's casting links
(`for casted in obj.casted: actors.append(casted.actor.name)`). -/
def movieActorNames (db : DB) (mid : Nat) : List String :=
  (db.castings.filter (fun c => c.movieId == mid)).filterMap
    (fun c => (findActor db c.actorId).map (fun a => a.name))

/-- `GET /actors` handler body (`get_actors`, `app.py` 32–47): every actor,
enriched with the titles of its movies. -/
def get_actors (db : DB) : Response × DB :=
  (⟨200, .arr (db.actors.map (fun a =>
      .obj [("id", .num a.id), ("name", .str a.name),
            ("age", .num a.age), ("gender", .str a.gender),
            ("movies", .arr ((actorMovieTitles db a.id).map Json.str))]))⟩,
   db)

/-- `GET /movies` handler body (`get_movies`, `app.py` 54–68): every movie,
enriched with the names of its actors. -/
def get_movies (db : DB) : Response × DB :=
  (⟨200, .arr (db.movies.map (fun m =>
      .obj [("id", .num m.id), ("title", .str m.title),
            ("release_date", .str m.release_date.fmtDate),
            ("actors", .arr ((movieActorNames db m.id).map Json.str))]))⟩,
   db)

/-- `DELETE /actors/<id>` handler body (`delete_actor`, `app.py` 74–89):
404 if the id does not resolve, otherwise `actor.delete()` (cascading per
the store model) and a success body. -/
def delete_actor (id : Nat) (db : DB) : Response × DB :=
  match findActor db id with
  | none => (resp404, db)
  | some _ =>
    (⟨200, .obj [("success", .bool true), ("delete", .num id)]⟩,
     db.removeActor id)

/-- `DELETE /movies/<id>` handler body (`delete_movie`, `app.py` 94–109). -/
def delete_movie (id : Nat) (db : DB) : Response × DB :=
  match findMovie db id with
  | none => (resp404, db)
  | some _ =>
    (⟨200, .obj [("success", .bool true), ("delete", .num id)]⟩,
     db.removeMovie id)

/-- `POST /actors` handler body (`post_actor`, `app.py` 116–139).
An absent or falsy JSON body aborts 400. Inside the bare `try`, a missing
`name`/`age`/`gender` key leaves the local unbound (`NameError`), and an
ill-typed value is rejected by the typed store columns; both are caught
by the blanket `except` and abort 422. -/
def post_actor (rbody : Option JsonObj) (db : DB) : Response × DB :=
  match rbody with
  | none => (resp400, db)
  | some j =>
    if j.isEmpty then (resp400, db)
    else
      match lookupKey j "name", lookupKey j "age", lookupKey j "gender" with
      | some (.str name), some (.num age), some (.str gender) =>
        let a : Actor := ⟨freshId (db.actors.map (fun x => x.id)), name, age, gender⟩
        (⟨200, .obj [("success", .bool true), ("actor", a.format)]⟩,
         { db with actors := db.actors ++ [a] })
      | _, _, _ => (resp422, db)

/-- `POST /movies` handler body (`post_movie`, `app.py` 146–169).
An absent or falsy JSON body aborts 400. A bad `release_date` raises
inside the `try` (caught → 422); a missing or ill-typed `title` or
`release_date` is rejected at `insert()` by the store's required typed
columns (caught → 422). -/
def post_movie (rbody : Option JsonObj) (db : DB) : Response × DB :=
  match rbody with
  | none => (resp400, db)
  | some j =>
    if j.isEmpty then (resp400, db)
    else
      match lookupKey j "title", lookupKey j "release_date" with
      | some (.str title), some (.str rd) =>
        match parseReleaseDate rd with
        | none => (resp422, db)
        | some dt =>
          let m : Movie := ⟨freshId (db.movies.map (fun x => x.id)), title, dt⟩
          (⟨200, .obj [("success", .bool true), ("movie", m.format)]⟩,
           { db with movies := db.movies ++ [m] })
      | _, _ => (resp422, db)

/-- The new actor field value for `patch_actor`: key absent keeps the old
value; a present value must fit the typed column (else the commit raises
and the handler aborts 422). -/
def patchStr (j : JsonObj) (k : String) (old : String) : Option String :=
  match lookupKey j k with
  | none => some old
  | some (.str s) => some s
  | some _ => none

/-- As `patchStr`, for the integer `age` column. -/
def patchNum (j : JsonObj) (k : String) (old : Int) : Option Int :=
  match lookupKey j k with
  | none => some old
  | some (.num n) => some n
  | some _ => none

/-- `PATCH /actors/<id>` handler body (`patch_actor`, `app.py` 175–204):
400 on absent/empty body, then 404 on unresolved id, then each supplied
field overwrites the row field; `update()` commits. Failures inside the
`try` abort 422 with nothing committed (transactional store, spec §5). -/
def patch_actor (id : Nat) (rbody : Option JsonObj) (db : DB) : Response × DB :=
  match rbody with
  | none => (resp400, db)
  | some j =>
    if j.isEmpty then (resp400, db)
    else
      match findActor db id with
      | none => (resp404, db)
      | some a =>
        match patchStr j "name" a.name, patchNum j "age" a.age,
              patchStr j "gender" a.gender with
        | some name, some age, some gender =>
          let a' : Actor := ⟨a.id, name, age, gender⟩
          (⟨200, .obj [("success", .bool true), ("actor", a'.format)]⟩,
           { db with actors := replaceFirstActor db.actors id a' })
        | _, _, _ => (resp422, db)

/-- The new release date for `patch_movie`: key absent keeps the old
value; a present value must be a string that parses (else the handler's
`try` raises and aborts 422). -/
def patchDate (j : JsonObj) (old : PyDateTime) : Option PyDateTime :=
  match lookupKey j "release_date" with
  | none => some old
  | some (.str s) => parseReleaseDate s
  | some _ => none

/-- `PATCH /movies/<id>` handler body (`patch_movie`, `app.py` 211–240). -/
def patch_movie (id : Nat) (rbody : Option JsonObj) (db : DB) : Response × DB :=
  match rbody with
  | none => (resp400, db)
  | some j =>
    if j.isEmpty then (resp400, db)
    else
      match findMovie db id with
      | none => (resp404, db)
      | some m =>
        match patchStr j "title" m.title, patchDate j m.release_date with
        | some title, some dt =>
          let m' : Movie := ⟨m.id, title, dt⟩
          (⟨200, .obj [("success", .bool true), ("movie", m'.format)]⟩,
           { db with movies := replaceFirstMovie db.movies id m' })
        | _, _ => (resp422, db)

/-! ## Authorization layer

`auth.py` (`requires_auth`, `AuthError`) is imported by `app.py` but not
in the source tree; the Credential Verifier (§4.1), Capability Extractor
(§4.2) and Access Guard (§4.3) are modelled from the spec. -/

/-- Modelled from the spec: a bearer credential as the Credential
Verifier sees it — each Boolean records whether the corresponding
verification step of §4.1 would succeed, and `permissions` is the
capability claim field (absent/ill-formed ↦ `none`), §4.2. -/
structure Token where
  wellFormed : Bool
  knownKey : Bool
  validSignature : Bool
  issuerOk : Bool
  audienceOk : Bool
  notExpired : Bool
  permissions : Option (List String)
  deriving Repr, DecidableEq

/-- Outcome of the Access Guard: the verified capability list, or a typed
failure carrying the HTTP status and message. -/
inductive AuthCheck where
  | ok : List String → AuthCheck
  | fail : Nat → String → AuthCheck
  deriving Repr, DecidableEq

/-- Modelled from the spec: `verify` of the missing `auth.py` (§4.1) —
checks run in order, each failure a distinct typed 401 reason, no partial
trust; success returns the decoded claim set unchanged. -/
def verifyToken (tok : Option Token) : Except (Nat × String) Token :=
  match tok with
  | none => .error (401, "authorization header missing")
  | some t =>
    if !t.wellFormed then .error (401, "malformed token")
    else if !t.knownKey then .error (401, "unknown signing key")
    else if !t.validSignature then .error (401, "invalid signature")
    else if !t.issuerOk then .error (401, "wrong issuer")
    else if !t.audienceOk then .error (401, "wrong audience")
    else if !t.notExpired then .error (401, "token expired")
    else .ok t

/-- Modelled from the spec: the Access Guard (§4.2–§4.3) of the missing
`auth.py` — propagates verification failures unchanged, fails 401 on a
malformed capability claim, and fails 403 naming the capability when
`needed` is not among the granted ones. -/
def authGuard (needed : String) (tok : Option Token) : AuthCheck :=
  match verifyToken tok with
  | .error (code, msg) => .fail code msg
  | .ok t =>
    match t.permissions with
    | none => .fail 401 "malformed claims"
    | some caps =>
      if needed ∈ caps then .ok caps
      else .fail 403 ("Permission not found: " ++ needed)

/-- Modelled from the spec: the `@requires_auth(permission)` decorator of
the missing `auth.py` composed with the `@app.errorhandler(AuthError)`
handler of `app.py` (lines 268–274) — a guard failure raises `AuthError`,
rendered as the uniform envelope with the failure's status code, before
the wrapped handler body ever runs; on success the handler body runs. -/
def requires_auth (permission : String) (handler : DB → Response × DB)
    (tok : Option Token) (db : DB) : Response × DB :=
  match authGuard permission tok with
  | .fail code msg => (⟨code, errBody code msg⟩, db)
  | .ok _ => handler db

/-! ## Routing: the eight protected operations of `app.py` -/

/-- The eight protected operations `app.py` registers. -/
inductive Op where
  | listActors | listMovies
  | createActor | createMovie
  | updateActor | updateMovie
  | deleteActor | deleteMovie
  deriving Repr, DecidableEq

/-- The capability each route's `@requires_auth(...)` decorator names in
`app.py` (lines 33, 55, 75, 95, 117, 147, 176, 212). -/
def requiredCapability : Op → String
  | .listActors => "get:actor"
  | .listMovies => "get:movie"
  | .createActor => "post:actor"
  | .createMovie => "post:movie"
  | .updateActor => "patch:actor"
  | .updateMovie => "patch:movie"
  | .deleteActor => "delete:actor"
  | .deleteMovie => "delete:movie"

/-- An inbound request: credential, JSON body (when one was sent), and
the id path segment (meaningful for the `<int:id>` routes). -/
structure Request where
  token : Option Token
  rbody : Option JsonObj
  targetId : Nat

/-- The handler body each operation dispatches to. -/
def dispatch (op : Op) (req : Request) (db : DB) : Response × DB :=
  match op with
  | .listActors => get_actors db
  | .listMovies => get_movies db
  | .createActor => post_actor req.rbody db
  | .createMovie => post_movie req.rbody db
  | .updateActor => patch_actor req.targetId req.rbody db
  | .updateMovie => patch_movie req.targetId req.rbody db
  | .deleteActor => delete_actor req.targetId db
  | .deleteMovie => delete_movie req.targetId db

/-- A full protected request: every operation's handler is wrapped by
`requires_auth` with that operation's capability — there is no other
entry point to a handler body in `app.py`. -/
def handleRequest (op : Op) (req : Request) (db : DB) : Response × DB :=
  requires_auth (requiredCapability op) (dispatch op req) req.token db

/-! ## Concrete fixtures -/

/-- The empty store. -/
def dbEmpty : DB := ⟨[], [], []⟩

/-- 2021-12-31, the spec's example release date. -/
def dateEx : PyDateTime := ⟨2021, 12, 31, 0, 0, 0, 0⟩

/-- A sample actor row. -/
def actorEx : Actor := ⟨1, "Alice", 30, "F"⟩

/-- A sample movie row. -/
def movieEx : Movie := ⟨1, "Dune", dateEx⟩

/-- A store with one actor, one movie, and a casting link between them. -/
def dbEx : DB := ⟨[actorEx], [movieEx], [⟨1, 1⟩]⟩

/-- A credential that passes every verification step and carries all
eight capabilities. -/
def tokAll : Token :=
  ⟨true, true, true, true, true, true,
   some ["get:actor", "get:movie", "post:actor", "post:movie",
         "patch:actor", "patch:movie", "delete:actor", "delete:movie"]⟩

example : parseReleaseDate "2021-12-31" = some ⟨2021, 12, 31, 0, 0, 0, 0⟩ := by rfl
example : parseReleaseDate "2021-13-01" = none := by rfl
example : parseReleaseDate "2021-12-31-23" = some ⟨2021, 12, 31, 23, 0, 0, 0⟩ := by rfl
example : parseReleaseDate "" = none := by rfl
example : parseReleaseDate "2021-12" = none := by rfl
example : (post_actor (some [("name", Json.str "X")]) dbEmpty).1.status = 422 := by rfl
example : authGuard "delete:actor" (some tokAll) = .ok (tokAll.permissions.getD []) := by rfl
example : authGuard "delete:actor" none = .fail 401 "authorization header missing" := by rfl
example :
    authGuard "delete:actor" (some { tokAll with permissions := some ["get:actor"] }) =
      .fail 403 "Permission not found: delete:actor" := by rfl

/-! ## Helper lemmas -/

/-- A successful key lookup means the object is not the empty object. -/
theorem lookupKey_ne_nil {j : JsonObj} {k : String} {v : Json}
    (h : lookupKey j k = some v) : j ≠ [] := by
  intro hnil
  rw [hnil] at h
  exact Option.noConfusion h

/-! ## C1 -/

/-- C1: for every protected operation, the authorization guard is
evaluated first: whenever the guard fails (credential fails verification,
claims are malformed, or the required capability is absent), the request
returns exactly the typed authorization failure envelope and the Entity
Store is untouched — the handler body, and with it every store read or
mutation, never runs. -/
theorem guard_failure_blocks_store (op : Op) (req : Request) (db : DB)
    (code : Nat) (msg : String)
    (h : authGuard (requiredCapability op) req.token = .fail code msg) :
    handleRequest op req db = (⟨code, errBody code msg⟩, db) := by
  unfold handleRequest requires_auth
  rw [h]

/-- Witness for C1: a missing credential on `DELETE /actors/1` yields the
401 failure with the store untouched, and a credential lacking
`delete:actor` yields the 403 failure naming the capability. -/
theorem guard_failure_blocks_store_witness :
    handleRequest .deleteActor ⟨none, none, 1⟩ dbEx =
      (⟨401, errBody 401 "authorization header missing"⟩, dbEx) ∧
    handleRequest .deleteActor
        ⟨some { tokAll with permissions := some ["get:actor"] }, none, 1⟩ dbEx =
      (⟨403, errBody 403 "Permission not found: delete:actor"⟩, dbEx) :=
  ⟨guard_failure_blocks_store .deleteActor ⟨none, none, 1⟩ dbEx 401
      "authorization header missing" rfl,
   guard_failure_blocks_store .deleteActor
      ⟨some { tokAll with permissions := some ["get:actor"] }, none, 1⟩ dbEx 403
      "Permission not found: delete:actor" rfl⟩

/-! ## C2 -/

/-- C2: every operation names exactly the capability of the spec's table,
and every invocation goes through the guard — the outcome of any request
is fully determined by running the guard first: its failure envelope, or
the handler body only after the guard succeeds. There is no bypass path. -/
theorem capability_table_no_bypass :
    (requiredCapability .listActors = "get:actor" ∧
     requiredCapability .listMovies = "get:movie" ∧
     requiredCapability .createActor = "post:actor" ∧
     requiredCapability .createMovie = "post:movie" ∧
     requiredCapability .updateActor = "patch:actor" ∧
     requiredCapability .updateMovie = "patch:movie" ∧
     requiredCapability .deleteActor = "delete:actor" ∧
     requiredCapability .deleteMovie = "delete:movie") ∧
    ∀ (op : Op) (req : Request) (db : DB),
      handleRequest op req db =
        match authGuard (requiredCapability op) req.token with
        | .fail code msg => (⟨code, errBody code msg⟩, db)
        | .ok _ => dispatch op req db := by
  refine ⟨⟨rfl, rfl, rfl, rfl, rfl, rfl, rfl, rfl⟩, ?_⟩
  intro op req db
  cases h : authGuard (requiredCapability op) req.token <;>
    simp [handleRequest, requires_auth, h]

/-! ## C3 -/

/-- C3 counterexample: `POST /actors` with the non-empty payload
`{"name": "X"}` (age and gender absent) is rejected with status 422, not
the claimed 400 — the unbound-local `NameError` is swallowed by the bare
`except` which aborts 422. No actor is inserted. -/
theorem create_missing_field_cex :
    (post_actor (some [("name", Json.str "X")]) dbEmpty).1.status = 422 ∧
    ¬ (post_actor (some [("name", Json.str "X")]) dbEmpty).1.status = 400 ∧
    (post_actor (some [("name", Json.str "X")]) dbEmpty).2 = dbEmpty :=
  ⟨rfl, by decide, rfl⟩

/-- C3 amended: a create whose non-empty payload omits a required field
for its entity kind is rejected with 422 (unprocessable) — not 400, which
is reserved for an absent or empty body — and no entity is inserted. -/
theorem create_missing_field_422 (db : DB) (j : JsonObj) :
    (j ≠ [] →
      (lookupKey j "name" = none ∨ lookupKey j "age" = none ∨
       lookupKey j "gender" = none) →
      post_actor (some j) db = (resp422, db)) ∧
    (j ≠ [] →
      (lookupKey j "title" = none ∨ lookupKey j "release_date" = none) →
      post_movie (some j) db = (resp422, db)) := by
  constructor
  · intro hne hmiss
    cases j with
    | nil => exact absurd rfl hne
    | cons hd tl =>
      simp only [post_actor]
      split
      · rename_i h
        simp at h
      · split
        · rename_i heq1 heq2 heq3
          rcases hmiss with h | h | h <;> simp_all
        · rfl
  · intro hne hmiss
    cases j with
    | nil => exact absurd rfl hne
    | cons hd tl =>
      simp only [post_movie]
      split
      · rename_i h
        simp at h
      · split
        · rename_i heq1 heq2
          rcases hmiss with h | h <;> simp_all
        · rfl

/-- Witness for C3's amended theorem: the counterexample payload and a
movie payload missing its release date both land on 422 with the store
unchanged. -/
theorem create_missing_field_422_witness :
    post_actor (some [("name", Json.str "Y")]) dbEx = (resp422, dbEx) ∧
    post_movie (some [("title", Json.str "Tenet")]) dbEx = (resp422, dbEx) :=
  ⟨(create_missing_field_422 dbEx [("name", Json.str "Y")]).1
      (List.cons_ne_nil _ _) (Or.inr (Or.inl rfl)),
   (create_missing_field_422 dbEx [("title", Json.str "Tenet")]).2
      (List.cons_ne_nil _ _) (Or.inr rfl)⟩

/-! ## C7 -/

/-- C7 counterexample: `POST /movies` with `release_date` `"2021-13-01"`
(month 13, not a valid calendar date) is rejected with status 422, not
the claimed 400 — the `datetime` `ValueError` is swallowed by the bare
`except` which aborts 422. No movie is inserted. -/
theorem bad_date_cex :
    (post_movie (some [("title", Json.str "Dune"),
        ("release_date", Json.str "2021-13-01")]) dbEmpty).1.status = 422 ∧
    ¬ (post_movie (some [("title", Json.str "Dune"),
        ("release_date", Json.str "2021-13-01")]) dbEmpty).1.status = 400 ∧
    (post_movie (some [("title", Json.str "Dune"),
        ("release_date", Json.str "2021-13-01")]) dbEmpty).2 = dbEmpty :=
  ⟨rfl, by decide, rfl⟩

/-- C7 amended: a movie create or update whose `release_date` string does
not parse to a valid datetime fails with 422 (unprocessable) — not 400 —
never an unhandled crash, and no movie record is inserted or changed. -/
theorem bad_date_422 (db : DB) (j : JsonObj) (s : String)
    (hrd : lookupKey j "release_date" = some (.str s))
    (hbad : parseReleaseDate s = none) :
    post_movie (some j) db = (resp422, db) ∧
    ∀ id m, findMovie db id = some m →
      patch_movie id (some j) db = (resp422, db) := by
  constructor
  · cases j with
    | nil => exact absurd hrd (by simp [lookupKey])
    | cons hd tl =>
      simp only [post_movie]
      split
      · rename_i h
        simp at h
      · split
        · rename_i heq1 heq2
          rw [hrd] at heq2
          cases heq2
          rw [hbad]
        · rfl
  · intro id m hm
    cases j with
    | nil => exact absurd hrd (by simp [lookupKey])
    | cons hd tl =>
      have hpd : patchDate (hd :: tl) m.release_date = none := by
        unfold patchDate
        rw [hrd]
        exact hbad
      simp only [patch_movie]
      split
      · rename_i h
        simp at h
      · split
        · rename_i heq
          rw [hm] at heq
          exact Option.noConfusion heq
        · rename_i m' heq
          rw [hm] at heq
          injection heq with heq'
          subst heq'
          split
          · rename_i heq1 heq2
            rw [hpd] at heq2
            exact Option.noConfusion heq2
          · rfl

/-- Witness for C7's amended theorem: day 45 of month 13 is rejected with
422 by both the create and the update path, leaving the store unchanged. -/
theorem bad_date_422_witness :
    post_movie (some [("release_date", Json.str "2021-13-45")]) dbEx =
      (resp422, dbEx) ∧
    patch_movie 1 (some [("release_date", Json.str "2021-13-45")]) dbEx =
      (resp422, dbEx) :=
  ⟨(bad_date_422 dbEx [("release_date", Json.str "2021-13-45")]
      "2021-13-45" rfl rfl).1,
   (bad_date_422 dbEx [("release_date", Json.str "2021-13-45")]
      "2021-13-45" rfl rfl).2 1 movieEx rfl⟩

/-! ## C9 -/

/-- C9: a POST or PATCH whose body parses to the empty JSON object is
answered 400 (bad request) before any field — or even the id — is
examined, with the store untouched: an empty partial update is rejected,
not a successful no-op. -/
theorem empty_object_body_bad_request (db : DB) (id : Nat) :
    post_actor (some []) db = (resp400, db) ∧
    post_movie (some []) db = (resp400, db) ∧
    patch_actor id (some []) db = (resp400, db) ∧
    patch_movie id (some []) db = (resp400, db) :=
  ⟨rfl, rfl, rfl, rfl⟩

/-! ## C6 -/

/-- C6 counterexample: a PATCH addressed to the nonexistent id 5, carrying
a valid credential with every capability but an empty JSON object body, is
answered 400 (the body check at `app.py` 179–180 runs before the id lookup
at 182–184), not the claimed 404. -/
theorem nonexistent_id_cex :
    findActor dbEmpty 5 = none ∧
    handleRequest .updateActor ⟨some tokAll, some [], 5⟩ dbEmpty =
      (resp400, dbEmpty) ∧
    ¬ (handleRequest .updateActor ⟨some tokAll, some [], 5⟩ dbEmpty).1.status = 404 :=
  ⟨rfl, rfl, by decide⟩

/-- C6 amended: a DELETE addressed to a nonexistent id fails 404 with the
store unchanged; a PATCH addressed to a nonexistent id fails 404 with the
store unchanged provided its body is a non-empty JSON object — an absent
or empty body is answered 400 by the body check that precedes the id
lookup. 404 is distinct from the validation and authorization statuses. -/
theorem nonexistent_id_not_found (db : DB) (id : Nat) (j : JsonObj) :
    (findActor db id = none → delete_actor id db = (resp404, db)) ∧
    (findActor db id = none → j ≠ [] →
      patch_actor id (some j) db = (resp404, db)) ∧
    (findMovie db id = none → delete_movie id db = (resp404, db)) ∧
    (findMovie db id = none → j ≠ [] →
      patch_movie id (some j) db = (resp404, db)) := by
  refine ⟨?_, ?_, ?_, ?_⟩
  · intro h
    unfold delete_actor
    rw [h]
  · intro h hne
    cases j with
    | nil => exact absurd rfl hne
    | cons hd tl =>
      simp only [patch_actor]
      split
      · rename_i hh
        simp at hh
      · rw [h]
  · intro h
    unfold delete_movie
    rw [h]
  · intro h hne
    cases j with
    | nil => exact absurd rfl hne
    | cons hd tl =>
      simp only [patch_movie]
      split
      · rename_i hh
        simp at hh
      · rw [h]

/-- Witness for C6's amended theorem: deleting and patching id 7 in the
store that only holds id 1 both answer 404 and leave the store intact. -/
theorem nonexistent_id_not_found_witness :
    delete_actor 7 dbEx = (resp404, dbEx) ∧
    patch_movie 7 (some [("title", Json.str "B")]) dbEx = (resp404, dbEx) :=
  ⟨(nonexistent_id_not_found dbEx 7 [("title", Json.str "B")]).1 rfl,
   (nonexistent_id_not_found dbEx 7 [("title", Json.str "B")]).2.2.2 rfl
     (List.cons_ne_nil _ _)⟩

/-! ## Helper lemmas for the update frame (C4) -/

/-- A found list entry satisfies the search predicate: its id is the
searched id. -/
theorem findActor_id {db : DB} {id : Nat} {a : Actor}
    (h : findActor db id = some a) : a.id = id := by
  have := List.find?_some h
  simpa using this

/-- A found movie's id is the searched id. -/
theorem findMovie_id {db : DB} {id : Nat} {m : Movie}
    (h : findMovie db id = some m) : m.id = id := by
  have := List.find?_some h
  simpa using this

/-- Searching after `replaceFirstActor` finds the replacement, provided an
entry with the id was present and the replacement keeps the id. -/
theorem find?_replaceFirstActor {l : List Actor} {id : Nat} {a : Actor}
    (a' : Actor) (h : l.find? (fun x => x.id == id) = some a)
    (ha' : a'.id = id) :
    (replaceFirstActor l id a').find? (fun x => x.id == id) = some a' := by
  induction l with
  | nil => simp [List.find?] at h
  | cons x xs ih =>
    by_cases hx : x.id = id
    · simp only [replaceFirstActor, if_pos hx]
      exact List.find?_cons_of_pos _ (by simp [ha'])
    · simp only [replaceFirstActor, if_neg hx]
      rw [List.find?_cons_of_neg _ (by simp [hx])]
      rw [List.find?_cons_of_neg _ (by simp [hx])] at h
      exact ih h

/-- Searching after `replaceFirstMovie` finds the replacement. -/
theorem find?_replaceFirstMovie {l : List Movie} {id : Nat} {m : Movie}
    (m' : Movie) (h : l.find? (fun x => x.id == id) = some m)
    (hm' : m'.id = id) :
    (replaceFirstMovie l id m').find? (fun x => x.id == id) = some m' := by
  induction l with
  | nil => simp [List.find?] at h
  | cons x xs ih =>
    by_cases hx : x.id = id
    · simp only [replaceFirstMovie, if_pos hx]
      exact List.find?_cons_of_pos _ (by simp [hm'])
    · simp only [replaceFirstMovie, if_neg hx]
      rw [List.find?_cons_of_neg _ (by simp [hx])]
      rw [List.find?_cons_of_neg _ (by simp [hx])] at h
      exact ih h

/-- Entries with a different id survive `replaceFirstActor` untouched. -/
theorem mem_replaceFirstActor {l : List Actor} {id : Nat} {a' x : Actor}
    (hx : x ∈ l) (hne : x.id ≠ id) : x ∈ replaceFirstActor l id a' := by
  induction l with
  | nil => cases hx
  | cons y ys ih =>
    by_cases hy : y.id = id
    · simp only [replaceFirstActor, if_pos hy]
      rcases List.mem_cons.mp hx with h | h
      · subst h
        exact absurd hy hne
      · exact List.mem_cons_of_mem _ h
    · simp only [replaceFirstActor, if_neg hy]
      rcases List.mem_cons.mp hx with h | h
      · subst h
        exact List.mem_cons_self _ _
      · exact List.mem_cons_of_mem _ (ih h)

/-- Entries with a different id survive `replaceFirstMovie` untouched. -/
theorem mem_replaceFirstMovie {l : List Movie} {id : Nat} {m' x : Movie}
    (hx : x ∈ l) (hne : x.id ≠ id) : x ∈ replaceFirstMovie l id m' := by
  induction l with
  | nil => cases hx
  | cons y ys ih =>
    by_cases hy : y.id = id
    · simp only [replaceFirstMovie, if_pos hy]
      rcases List.mem_cons.mp hx with h | h
      · subst h
        exact absurd hy hne
      · exact List.mem_cons_of_mem _ h
    · simp only [replaceFirstMovie, if_neg hy]
      rcases List.mem_cons.mp hx with h | h
      · subst h
        exact List.mem_cons_self _ _
      · exact List.mem_cons_of_mem _ (ih h)

/-! ## C4 -/

/-- C4: a successful PATCH of an existing actor or movie changes only the
fields present in the supplied payload: every absent field keeps its prior
value, the id is never changed regardless of the payload, only the
targeted row is replaced, and the other two tables are untouched. -/
theorem patch_changes_only_supplied_fields (db : DB) (id : Nat) (j : JsonObj) :
    (∀ a r db', findActor db id = some a →
      patch_actor id (some j) db = (r, db') → r.status = 200 →
      ∃ a', db'.actors = replaceFirstActor db.actors id a' ∧
        db'.movies = db.movies ∧ db'.castings = db.castings ∧
        a'.id = a.id ∧
        (lookupKey j "name" = none → a'.name = a.name) ∧
        (lookupKey j "age" = none → a'.age = a.age) ∧
        (lookupKey j "gender" = none → a'.gender = a.gender) ∧
        findActor db' id = some a' ∧
        (∀ x ∈ db.actors, x.id ≠ id → x ∈ db'.actors)) ∧
    (∀ m r db', findMovie db id = some m →
      patch_movie id (some j) db = (r, db') → r.status = 200 →
      ∃ m', db'.movies = replaceFirstMovie db.movies id m' ∧
        db'.actors = db.actors ∧ db'.castings = db.castings ∧
        m'.id = m.id ∧
        (lookupKey j "title" = none → m'.title = m.title) ∧
        (lookupKey j "release_date" = none → m'.release_date = m.release_date) ∧
        findMovie db' id = some m' ∧
        (∀ x ∈ db.movies, x.id ≠ id → x ∈ db'.movies)) := by
  constructor
  · intro a r db' hfind hrun h200
    cases j with
    | nil =>
      rw [show patch_actor id (some []) db = (resp400, db) from rfl] at hrun
      cases hrun
      exact absurd h200 (by decide)
    | cons hd tl =>
      simp only [patch_actor] at hrun
      split at hrun
      · rename_i hh
        simp at hh
      · split at hrun
        · rename_i heq
          rw [hfind] at heq
          exact Option.noConfusion heq
        · rename_i a0 heq
          rw [hfind] at heq
          injection heq with heq'
          subst heq'
          split at hrun
          · rename_i name age gender h1 h2 h3
            cases hrun
            refine ⟨⟨a.id, name, age, gender⟩, rfl, rfl, rfl, rfl, ?_, ?_, ?_, ?_, ?_⟩
            · intro hn
              unfold patchStr at h1
              rw [hn] at h1
              injection h1 with h1'
              exact h1'.symm
            · intro hn
              unfold patchNum at h2
              rw [hn] at h2
              injection h2 with h2'
              exact h2'.symm
            · intro hn
              unfold patchStr at h3
              rw [hn] at h3
              injection h3 with h3'
              exact h3'.symm
            · unfold findActor
              exact find?_replaceFirstActor ⟨a.id, name, age, gender⟩ hfind
                (show a.id = id from findActor_id hfind)
            · intro x hx hne
              exact mem_replaceFirstActor hx hne
          · cases hrun
            exact absurd h200 (by decide)
  · intro m r db' hfind hrun h200
    cases j with
    | nil =>
      rw [show patch_movie id (some []) db = (resp400, db) from rfl] at hrun
      cases hrun
      exact absurd h200 (by decide)
    | cons hd tl =>
      simp only [patch_movie] at hrun
      split at hrun
      · rename_i hh
        simp at hh
      · split at hrun
        · rename_i heq
          rw [hfind] at heq
          exact Option.noConfusion heq
        · rename_i m0 heq
          rw [hfind] at heq
          injection heq with heq'
          subst heq'
          split at hrun
          · rename_i title dt h1 h2
            cases hrun
            refine ⟨⟨m.id, title, dt⟩, rfl, rfl, rfl, rfl, ?_, ?_, ?_, ?_⟩
            · intro hn
              unfold patchStr at h1
              rw [hn] at h1
              injection h1 with h1'
              exact h1'.symm
            · intro hn
              unfold patchDate at h2
              rw [hn] at h2
              injection h2 with h2'
              exact h2'.symm
            · unfold findMovie
              exact find?_replaceFirstMovie ⟨m.id, title, dt⟩ hfind
                (show m.id = id from findMovie_id hfind)
            · intro x hx hne
              exact mem_replaceFirstMovie hx hne
          · cases hrun
            exact absurd h200 (by decide)

/-- Witness for C4: patching only the age of actor 1 yields a row that
keeps the id, name and gender while remaining findable under id 1. -/
theorem patch_changes_only_supplied_fields_witness :
    ∃ a', findActor (patch_actor 1 (some [("age", Json.num 31)]) dbEx).2 1 =
        some a' ∧
      a'.id = actorEx.id ∧ a'.name = actorEx.name ∧
      a'.gender = actorEx.gender := by
  obtain ⟨a', h1, h2, h3, h4, h5, h6, h7, h8, h9⟩ :=
    (patch_changes_only_supplied_fields dbEx 1 [("age", Json.num 31)]).1 actorEx
      (patch_actor 1 (some [("age", Json.num 31)]) dbEx).1
      (patch_actor 1 (some [("age", Json.num 31)]) dbEx).2
      rfl rfl rfl
  exact ⟨a', h8, h4, h5 rfl, h7 rfl⟩

/-! ## C5 -/

/-- C5: a successful delete of an actor removes, in the same operation,
every casting link referencing it: the surviving links are exactly the
ones not referencing the deleted id, each surviving link that referenced
an existing actor still does, and — when no other actor shares the name —
a subsequent movie listing no longer contains the deleted actor's name.
The movie analog removes every link referencing the deleted movie. -/
theorem delete_cascades_no_orphans (db : DB) (id : Nat) :
    (∀ a, findActor db id = some a →
      ∃ r db', delete_actor id db = (r, db') ∧ r.status = 200 ∧
        db'.castings = db.castings.filter (fun c => c.actorId ≠ id) ∧
        (∀ c ∈ db'.castings, c.actorId ≠ id ∧ c ∈ db.castings) ∧
        (∀ c ∈ db'.castings, (∃ x ∈ db.actors, x.id = c.actorId) →
          ∃ x ∈ db'.actors, x.id = c.actorId) ∧
        db'.movies = db.movies ∧
        (∀ mid, (∀ x ∈ db.actors, x.name = a.name → x.id = a.id) →
          a.name ∉ movieActorNames db' mid)) ∧
    (∀ m, findMovie db id = some m →
      ∃ r db', delete_movie id db = (r, db') ∧ r.status = 200 ∧
        db'.castings = db.castings.filter (fun c => c.movieId ≠ id) ∧
        (∀ c ∈ db'.castings, (∃ y ∈ db.movies, y.id = c.movieId) →
          ∃ y ∈ db'.movies, y.id = c.movieId)) := by
  constructor
  · intro a hfind
    refine ⟨⟨200, .obj [("success", .bool true), ("delete", .num id)]⟩,
      db.removeActor id, ?_, rfl, rfl, ?_, ?_, rfl, ?_⟩
    · unfold delete_actor
      rw [hfind]
    · intro c hc
      have hc' := List.mem_filter.mp hc
      exact ⟨of_decide_eq_true hc'.2, hc'.1⟩
    · rintro c hc ⟨x, hxmem, hxid⟩
      have hcid : c.actorId ≠ id := of_decide_eq_true (List.mem_filter.mp hc).2
      refine ⟨x, List.mem_filter.mpr ⟨hxmem, decide_eq_true ?_⟩, hxid⟩
      rw [hxid]
      exact hcid
    · intro mid huniq hmem
      unfold movieActorNames at hmem
      obtain ⟨c, hc, hfc⟩ := List.mem_filterMap.mp hmem
      obtain ⟨x, hx, hxname⟩ := Option.map_eq_some'.mp hfc
      have hxmem' : x ∈ (db.removeActor id).actors :=
        List.mem_of_find?_eq_some hx
      have hxfilter := List.mem_filter.mp hxmem'
      have hxne : x.id ≠ id := of_decide_eq_true hxfilter.2
      have hxid : x.id = a.id := huniq x hxfilter.1 hxname
      exact hxne (hxid.trans (findActor_id hfind))
  · intro m hfind
    refine ⟨⟨200, .obj [("success", .bool true), ("delete", .num id)]⟩,
      db.removeMovie id, ?_, rfl, rfl, ?_⟩
    · unfold delete_movie
      rw [hfind]
    · rintro c hc ⟨y, hymem, hyid⟩
      have hcid : c.movieId ≠ id := of_decide_eq_true (List.mem_filter.mp hc).2
      refine ⟨y, List.mem_filter.mpr ⟨hymem, decide_eq_true ?_⟩, hyid⟩
      rw [hyid]
      exact hcid

/-- Witness for C5: deleting actor 1 from the store where actor 1 is cast
in movie 1 removes the casting link and empties movie 1's actor-name
listing of the name Alice. -/
theorem delete_cascades_no_orphans_witness :
    ∃ r db', delete_actor 1 dbEx = (r, db') ∧ r.status = 200 ∧
      db'.castings = dbEx.castings.filter (fun c => c.actorId ≠ 1) ∧
      ¬ actorEx.name ∈ movieActorNames db' 1 := by
  obtain ⟨r, db', h1, h2, h3, h4, h5, h6, h7⟩ :=
    (delete_cascades_no_orphans dbEx 1).1 actorEx rfl
  refine ⟨r, db', h1, h2, h3, h7 1 ?_⟩
  intro x hx hxname
  have : x = actorEx := by
    rcases List.mem_singleton.mp hx with h
    exact h
  rw [this]

/-! ## C8 -/

/-- A response is either a success (status 200) or carries the uniform
error envelope `{success: false, error: <status>, message: <text>}` whose
`error` code equals the HTTP status. -/
def okOrEnvelope (p : Response × DB) : Prop :=
  p.1.status = 200 ∨ ∃ msg, p.1.body = errBody p.1.status msg

theorem post_actor_envelope (b : Option JsonObj) (db : DB) :
    okOrEnvelope (post_actor b db) := by
  unfold okOrEnvelope post_actor
  split
  · exact Or.inr ⟨"bad request", rfl⟩
  · split
    · exact Or.inr ⟨"bad request", rfl⟩
    · split
      · exact Or.inl rfl
      · exact Or.inr ⟨"unprocessable", rfl⟩

theorem post_movie_envelope (b : Option JsonObj) (db : DB) :
    okOrEnvelope (post_movie b db) := by
  unfold okOrEnvelope post_movie
  split
  · exact Or.inr ⟨"bad request", rfl⟩
  · split
    · exact Or.inr ⟨"bad request", rfl⟩
    · split
      · split
        · exact Or.inr ⟨"unprocessable", rfl⟩
        · exact Or.inl rfl
      · exact Or.inr ⟨"unprocessable", rfl⟩

theorem patch_actor_envelope (id : Nat) (b : Option JsonObj) (db : DB) :
    okOrEnvelope (patch_actor id b db) := by
  unfold okOrEnvelope patch_actor
  split
  · exact Or.inr ⟨"bad request", rfl⟩
  · split
    · exact Or.inr ⟨"bad request", rfl⟩
    · split
      · exact Or.inr ⟨"not found", rfl⟩
      · split
        · exact Or.inl rfl
        · exact Or.inr ⟨"unprocessable", rfl⟩

theorem patch_movie_envelope (id : Nat) (b : Option JsonObj) (db : DB) :
    okOrEnvelope (patch_movie id b db) := by
  unfold okOrEnvelope patch_movie
  split
  · exact Or.inr ⟨"bad request", rfl⟩
  · split
    · exact Or.inr ⟨"bad request", rfl⟩
    · split
      · exact Or.inr ⟨"not found", rfl⟩
      · split
        · exact Or.inl rfl
        · exact Or.inr ⟨"unprocessable", rfl⟩

theorem delete_actor_envelope (id : Nat) (db : DB) :
    okOrEnvelope (delete_actor id db) := by
  unfold okOrEnvelope delete_actor
  split
  · exact Or.inr ⟨"not found", rfl⟩
  · exact Or.inl rfl

theorem delete_movie_envelope (id : Nat) (db : DB) :
    okOrEnvelope (delete_movie id db) := by
  unfold okOrEnvelope delete_movie
  split
  · exact Or.inr ⟨"not found", rfl⟩
  · exact Or.inl rfl

/-- C8: every response of every protected operation is either a success
(status 200) or carries the uniform error envelope `{success: false,
error: <code>, message: <text>}` with the numeric `error` field equal to
the HTTP status — this covers authorization (401/403), validation (400),
not-found (404) and unprocessable (422) failures alike, whose bodies are
fixed envelopes with no stack detail. -/
theorem error_envelope_uniform (op : Op) (req : Request) (db : DB) :
    okOrEnvelope (handleRequest op req db) := by
  unfold handleRequest requires_auth
  cases h : authGuard (requiredCapability op) req.token with
  | fail code msg => exact Or.inr ⟨msg, rfl⟩
  | ok caps =>
    cases op <;> simp only [dispatch] <;>
      first
        | exact Or.inl rfl
        | exact post_actor_envelope _ _
        | exact post_movie_envelope _ _
        | exact patch_actor_envelope _ _ _
        | exact patch_movie_envelope _ _ _
        | exact delete_actor_envelope _ _
        | exact delete_movie_envelope _ _

/-! ## C10 -/

/-- With more than three integer arguments, the fourth `datetime`
positional argument is the hour of the constructed value. -/
theorem mkDatetime_hour {args : List Int} {dt : PyDateTime}
    (hmk : mkDatetime args = some dt) (hlen : 3 < args.length) :
    dt.hour = (args.getD 3 0).toNat := by
  unfold mkDatetime at hmk
  split at hmk <;>
    first
      | exact Option.noConfusion hmk
      | (exfalso; simp at hlen; done)
      | (unfold mkDatetime7 at hmk
         split at hmk
         · injection hmk with h
           subst h
           rfl
         · exact Option.noConfusion hmk)

/-- C10: a movie create or update whose `release_date` splits into more
than three dash-separated integer segments that form valid
datetime-constructor arguments is accepted: the request succeeds with
status 200, the stored date is the constructed datetime whose
time-of-day components come from the extra segments (the fourth segment
is the hour), and the row is inserted or replaced accordingly. -/
theorem extra_date_segments_accepted (db : DB) (t s : String)
    (args : List Int) (dt : PyDateTime)
    (hsplit : (splitDash s).mapM pyIntSeg = some args)
    (hlen : 3 < args.length)
    (hmk : mkDatetime args = some dt) :
    dt.hour = (args.getD 3 0).toNat ∧
    parseReleaseDate s = some dt ∧
    post_movie (some [("title", Json.str t), ("release_date", Json.str s)]) db =
      (⟨200, .obj [("success", .bool true),
          ("movie", Movie.format ⟨freshId (db.movies.map (fun x => x.id)), t, dt⟩)]⟩,
       { db with movies :=
          db.movies ++ [⟨freshId (db.movies.map (fun x => x.id)), t, dt⟩] }) ∧
    ∀ id m, findMovie db id = some m →
      patch_movie id (some [("release_date", Json.str s)]) db =
        (⟨200, .obj [("success", .bool true),
            ("movie", Movie.format ⟨m.id, m.title, dt⟩)]⟩,
         { db with movies := replaceFirstMovie db.movies id ⟨m.id, m.title, dt⟩ }) := by
  have hparse : parseReleaseDate s = some dt := by
    unfold parseReleaseDate
    rw [hsplit]
    exact hmk
  refine ⟨mkDatetime_hour hmk hlen, hparse, ?_, ?_⟩
  · simp [post_movie, lookupKey, hparse]
  · intro id m hm
    simp [patch_movie, lookupKey, hm, patchStr, patchDate, hparse]

/-- Witness for C10: the string `2021-12-31-23` (four segments) is
accepted by `POST /movies`; the stored datetime has hour 23. -/
theorem extra_date_segments_accepted_witness :
    parseReleaseDate "2021-12-31-23" = some ⟨2021, 12, 31, 23, 0, 0, 0⟩ ∧
    (post_movie (some [("title", Json.str "Dune"),
        ("release_date", Json.str "2021-12-31-23")]) dbEmpty).1.status = 200 := by
  obtain ⟨h1, h2, h3, h4⟩ :=
    extra_date_segments_accepted dbEmpty "Dune" "2021-12-31-23"
      [2021, 12, 31, 23] ⟨2021, 12, 31, 23, 0, 0, 0⟩ rfl (by decide) rfl
  exact ⟨h2, by rw [h3]⟩

end CastingAgency
